import Mathlib

/-!
Verification development for the multi-proxy download-link resolution and
caching subsystem of the media-library manager.

The subsystem exists in two copies in the repository:
  * `server/routes.ts` (the Express routes; embedded below in namespace `Routes`);
  * the standalone proxy-cache server `server.js` (embedded in namespace
    `CacheServer`).

The embedding is shallow: JSON payloads are modelled by the inductive `JVal`,
HTTP fetch results by `FetchOutcome`, times by integer milliseconds since the
Unix epoch (an ISO-8601 string and the instant it denotes are identified,
since `new Date(iso).getTime()` inverts `toISOString`), the sqlite row /
drizzle record by the structures `VideoRow` / `MediaItem`, and JavaScript
exceptions by `Except Unit`.  JavaScript library primitives used by the code
(`Date` parsing and range checking, `URL` query parsing, the two regular
expressions, `Number` and string coercion) are modelled by executable
functions below; each notes its modelling simplifications.
-/

set_option autoImplicit false

namespace Refine

/-- JSON-like values as produced by `res.json()` (and the `{ rawText: … }`
fallback wrapper).  Objects are association lists in key order; well-formed
parsed payloads have distinct, non-numeric keys, so first-occurrence lookup
models property access. Numbers are modelled as integers. -/
inductive JVal where
  | jnull
  | jbool (b : Bool)
  | jnum (n : Int)
  | jstr (s : String)
  | jarr (elems : List JVal)
  | jobj (fields : List (String × JVal))

namespace JVal

def isStr : JVal → Bool
  | .jstr _ => true
  | _ => false

end JVal

open JVal

/-- JavaScript truthiness of a `JVal` (`NaN` does not arise: numbers are
integers in this model). -/
def jTruthy : JVal → Bool
  | .jnull => false
  | .jbool b => b
  | .jnum n => n != 0
  | .jstr s => s != ""
  | .jarr _ => true
  | .jobj _ => true

/-- Numeric value of a digit string. -/
def natFromDigits (cs : List Char) : Nat :=
  cs.foldl (fun a c => a * 10 + (c.toNat - 48)) 0

/-- `some n` when the list is a nonempty run of decimal digits. -/
def parseNatDigits (cs : List Char) : Option Nat :=
  if cs ≠ [] ∧ cs.all (·.isDigit) then some (natFromDigits cs) else none

/-- Property access `j?.[k]` (and `j[k]` on a non-null receiver): field lookup
on objects, index lookup on arrays and strings, `undefined` (`none`)
otherwise. -/
def jGetOpt : JVal → String → Option JVal
  | .jobj fs, k => fs.lookup k
  | .jarr es, k =>
    match parseNatDigits k.toList with
    | some i => es[i]?
    | none => none
  | .jstr s, k =>
    match parseNatDigits k.toList with
    | some i => (s.toList[i]?).map (fun c => .jstr c.toString)
    | none => none
  | _, _ => none

/-- Property access defaulting to JSON null; `undefined` and `null` coincide
for every use the code makes of the result (truthiness and `||` chains). -/
def jField (j : JVal) (k : String) : JVal := (jGetOpt j k).getD .jnull

/-- JavaScript `a || b` specialised to the uses in the code. -/
def jOr (a b : JVal) : JVal := if jTruthy a then a else b

/-- `Object.keys(j)` together with the associated values, in insertion order
for objects and index order for arrays and strings. -/
def keyVals : JVal → List (String × JVal)
  | .jobj fs => fs
  | .jarr es => es.enum.map (fun p => (toString p.1, p.2))
  | .jstr s => s.toList.enum.map (fun p => (toString p.1, JVal.jstr p.2.toString))
  | _ => []

/-- `typeof j === "object"` for truthy `j` (i.e. objects and arrays; `null` is
excluded by the truthiness guards the code always uses first). -/
def isObjLike : JVal → Bool
  | .jobj _ => true
  | .jarr _ => true
  | _ => false

/-- Whitespace-trim on both ends of a character list. -/
def trimChars (cs : List Char) : List Char :=
  ((cs.dropWhile (·.isWhitespace)).reverse.dropWhile (·.isWhitespace)).reverse

/-- Split a character list on a separator character (keeping empty parts). -/
def splitOnChar (sep : Char) : List Char → List (List Char)
  | [] => [[]]
  | c :: cs =>
    if c = sep then [] :: splitOnChar sep cs
    else
      match splitOnChar sep cs with
      | h :: t => (c :: h) :: t
      | [] => [[c]]

/-- Join strings with a separator. -/
def joinSep (sep : String) : List String → String
  | [] => ""
  | [s] => s
  | s :: rest => s ++ sep ++ joinSep sep rest

/-- Is `pat` a suffix of `l`? -/
def endsWithList (pat l : List Char) : Bool :=
  l.drop (l.length - pat.length) = pat

/-- Models JavaScript `Number(v)` for a string (`none` = `NaN`).  Decimal
integer strings (optionally signed, surrounded by whitespace) are modelled;
fractional, exponent and hex forms are treated as `NaN`, a simplification the
theorems never exercise. -/
def parseIntStr (s : String) : Option Int :=
  let t := trimChars s.toList
  if t.isEmpty then some 0
  else
    let p : Bool × List Char :=
      match t with
      | c :: rest => if c = '-' then (true, rest) else (false, t)
      | [] => (false, t)
    if p.2 ≠ [] ∧ p.2.all (·.isDigit) then
      let n : Int := Int.ofNat (natFromDigits p.2)
      some (if p.1 then -n else n)
    else none

/-- Models JavaScript `Number(v)` on a `JVal` (`none` = `NaN`).  Arrays of
more than one element and objects coerce to `NaN`; the single-element array
case follows the string-join coercion. -/
def jsToNumber : JVal → Option Int
  | .jnum n => some n
  | .jstr s => parseIntStr s
  | .jbool b => some (if b then 1 else 0)
  | .jnull => some 0
  | .jarr [] => some 0
  | .jarr [v] =>
    match v with
    | .jnum n => some n
    | .jstr s => parseIntStr s
    | .jnull => some 0
    | _ => none
  | _ => none

/-- Models JavaScript `String(v)`.  Array joining is modelled one level deep
(nested arrays are not flattened); no theorem depends on the array or object
cases. -/
def jsToString : JVal → String
  | .jstr s => s
  | .jnum n => toString n
  | .jbool b => if b then "true" else "false"
  | .jnull => "null"
  | .jarr es =>
    joinSep ","
      (es.map (fun v =>
        match v with
        | .jnull => ""
        | .jstr s => s
        | .jnum n => toString n
        | .jbool b => if b then "true" else "false"
        | .jarr _ => ""
        | .jobj _ => "[object Object]"))
  | .jobj _ => "[object Object]"

/-- ECMA-262 time values are limited to ±8.64e15 ms; `toISOString` throws a
`RangeError` outside that range.  `new Date(n).toISOString()` for an integer
time value. -/
def jsDateToISO (n : Int) : Except Unit Int :=
  if -8640000000000000 ≤ n ∧ n ≤ 8640000000000000 then .ok n else .error ()

/-- Days since 1970-01-01 of a civil date (proleptic Gregorian); day values
beyond the month length roll over linearly, as ECMA's `MakeDay` does. -/
def daysFromCivil (y : Int) (m d : Nat) : Int :=
  let y' : Int := if m ≤ 2 then y - 1 else y
  let era : Int := (if 0 ≤ y' then y' else y' - 399) / 400
  let yoe : Int := y' - era * 400
  let mp : Int := (Int.ofNat m + 9) % 12
  let doy : Int := (153 * mp + 2) / 5 + Int.ofNat d - 1
  let doe : Int := yoe * 365 + yoe / 4 - yoe / 100 + doy
  era * 146097 + doe - 719468

/-- Models `Date.parse` on the ISO-8601 forms this system itself produces and
consumes: `YYYY-MM-DD` and `YYYY-MM-DDTHH:MM:SS.sssZ` (UTC).  Other datetime
forms (offsets, reduced precision, the `24:00` special case) are modelled as
unparsable; the theorems only exercise parse failure and the two forms
above. -/
def jsDateParse (s : String) : Option Int :=
  let cs := s.toList
  let dig (i : Nat) : Option Nat :=
    match cs[i]? with
    | some c => if c.isDigit then some (c.toNat - 48) else none
    | none => none
  let d2 (i : Nat) : Option Nat :=
    match dig i, dig (i+1) with
    | some a, some b => some (10*a + b)
    | _, _ => none
  let d3 (i : Nat) : Option Nat :=
    match dig i, dig (i+1), dig (i+2) with
    | some a, some b, some c => some (100*a + 10*b + c)
    | _, _, _ => none
  let d4 (i : Nat) : Option Nat :=
    match d2 i, d2 (i+2) with
    | some x, some y => some (100*x + y)
    | _, _ => none
  let chk (i : Nat) (c : Char) : Bool := cs[i]? = some c
  if s.length = 10 then
    match d4 0, d2 5, d2 8 with
    | some y, some mo, some dy =>
      if chk 4 '-' ∧ chk 7 '-' ∧ 1 ≤ mo ∧ mo ≤ 12 ∧ 1 ≤ dy ∧ dy ≤ 31 then
        some (daysFromCivil (Int.ofNat y) mo dy * 86400000)
      else none
    | _, _, _ => none
  else if s.length = 24 then
    match d4 0, d2 5, d2 8, d2 11, d2 14, d2 17, d3 20 with
    | some y, some mo, some dy, some hh, some mi, some ss, some ms =>
      if chk 4 '-' ∧ chk 7 '-' ∧ chk 10 'T' ∧ chk 13 ':' ∧ chk 16 ':' ∧
          chk 19 '.' ∧ chk 23 'Z' ∧
          1 ≤ mo ∧ mo ≤ 12 ∧ 1 ≤ dy ∧ dy ≤ 31 ∧ hh ≤ 23 ∧ mi ≤ 59 ∧ ss ≤ 59 then
        some (daysFromCivil (Int.ofNat y) mo dy * 86400000 +
          Int.ofNat (hh * 3600000 + mi * 60000 + ss * 1000 + ms))
      else none
    | _, _, _, _, _, _, _ => none
  else none

/-- Models `new Date(v).toISOString()` for a truthy field value `v`:
numbers are time values, strings go through `Date.parse`, booleans coerce
numerically; object and array coercions are modelled as invalid dates. -/
def jsNewDateToISO (v : JVal) : Except Unit Int :=
  match v with
  | .jnum n => jsDateToISO n
  | .jstr s =>
    match jsDateParse s with
    | some t => jsDateToISO t
    | none => .error ()
  | .jbool b => jsDateToISO (if b then 1 else 0)
  | .jnull => jsDateToISO 0
  | _ => .error ()

/-- Does the list start at some position with `pat`? (substring search). -/
def includesAux (pat : List Char) : List Char → Bool
  | [] => pat.isEmpty
  | c :: rest => if (c :: rest).take pat.length = pat then true else includesAux pat rest

/-- JavaScript `s.includes(pat)`. -/
def strIncludes (s pat : String) : Bool := includesAux pat.toList s.toList

/-- The test `/\.mp4(\?|$)/i`: the string contains `.mp4?` or ends in `.mp4`,
case-insensitively. -/
def mp4Pat (s : String) : Bool :=
  let t := s.toList.map Char.toLower
  includesAux ".mp4?".toList t || endsWithList ".mp4".toList t

/-- One anchored attempt of `/(\d+)\s*h/i`: a leading digit run, optional
whitespace, then `h` or `H`; the captured group is the digit run. -/
def hMatchAt (cs : List Char) : Option Nat :=
  let run := cs.takeWhile (·.isDigit)
  if run.isEmpty then none
  else
    match (cs.drop run.length).dropWhile (·.isWhitespace) with
    | c :: _ => if c = 'h' ∨ c = 'H' then some (natFromDigits run) else none
    | [] => none

def hPatternAux : List Char → Option Nat
  | [] => none
  | c :: cs =>
    match hMatchAt (c :: cs) with
    | some n => some n
    | none => hPatternAux cs

/-- First match of `/(\d+)\s*h/i` scanning left to right (a digit run can
only succeed at its own first attempted position, so the anchored attempt per
position models the engine's backtracking faithfully). -/
def hPattern (s : String) : Option Nat := hPatternAux s.toList

/-- Character class `[^\s'"]` of the embedded-URL regex. -/
def urlBodyChar (c : Char) : Bool :=
  !c.isWhitespace && c ≠ Char.ofNat 39 && c ≠ Char.ofNat 34

/-- One anchored attempt of `/(https?:\/\/[^\s'"]{30,200})/`. -/
def urlMatchAt (cs : List Char) : Option String :=
  let sch : Option (List Char × List Char) :=
    if cs.take 8 = "https://".toList then some ("https://".toList, cs.drop 8)
    else if cs.take 7 = "http://".toList then some ("http://".toList, cs.drop 7)
    else none
  match sch with
  | none => none
  | some (pre, rest) =>
    let body := rest.takeWhile urlBodyChar
    if 30 ≤ body.length then some (String.mk (pre ++ body.take 200)) else none

def firstUrlAux : List Char → Option String
  | [] => none
  | c :: cs =>
    match urlMatchAt (c :: cs) with
    | some u => some u
    | none => firstUrlAux cs

/-- `rx.exec(text)[1]` for `rx = /(https?:\/\/[^\s'"]{30,200})/g` on a fresh
regex state: the first embedded absolute URL of body length at least 30. -/
def firstUrlMatch (s : String) : Option String := firstUrlAux s.toList

/-- Models `new URL(s).searchParams` restricted to what the system handles:
`none` models the `TypeError` thrown on unparsable input.  A string parses
when it starts with `http://` or `https://` and has a nonempty host; the
query is the `&`-separated list after the first `?` (before any `#`), each
entry split at its first `=`.  Percent-decoding is not modelled (the values
the heuristics inspect are unencoded digit/duration strings). -/
def parseUrlQuery (s : String) : Option (List (String × String)) :=
  let cs := s.toList
  let afterScheme : Option (List Char) :=
    if cs.take 8 = "https://".toList then some (cs.drop 8)
    else if cs.take 7 = "http://".toList then some (cs.drop 7)
    else none
  match afterScheme with
  | none => none
  | some rest =>
    let host := rest.takeWhile (fun c => c ≠ '/' ∧ c ≠ '?' ∧ c ≠ '#')
    if host.isEmpty then none
    else
      let beforeHash := cs.takeWhile (· ≠ '#')
      match beforeHash.dropWhile (· ≠ '?') with
      | [] => some []
      | _ :: q =>
        some ((splitOnChar '&' q).filterMap (fun seg =>
          match seg with
          | [] => none
          | _ =>
            match splitOnChar '=' seg with
            | [] => none
            | k :: rest => some (String.mk k, joinSep "=" (rest.map String.mk))))

/-! ### ExpiryResolver: `parseExpiryFromResponse`

Both copies are identical except for the candidate-key list (the standalone
server lists `dstime` twice, which is behaviourally inert), so the body is
shared and each copy instantiates it with its own key list. -/

/-- The body-field heuristics of `parseExpiryFromResponse` (the part outside
the `try` block): `some r` means the function returns/throws with `r`;
`none` means control falls through to the URL heuristics.  A present but
malformed `expires_at` (or non-numeric `expires_in`) throws, because the
`new Date(…).toISOString()` call is not inside the `try`. -/
def bodyExpiry (resp : JVal) (now : Int) : Option (Except Unit Int) :=
  if isObjLike resp then
    let ea := jField resp "expires_at"
    if jTruthy ea then some (jsNewDateToISO ea)
    else
      let ei := jField resp "expires_in"
      if jTruthy ei then
        some (match jsToNumber ei with
          | some n => jsDateToISO (now + n * 1000)
          | none => .error ())
      else
        let ex := jField resp "expires"
        if jTruthy ex then
          match hPattern (jsToString ex) with
          | some h => some (jsDateToISO (now + (h : Int) * 3600 * 1000))
          | none => none
        else none
  else none

/-- The condition `/^\d+$/.test(v) && v.length >= 9` on a query-parameter
value. -/
def epochParamCond (v : String) : Bool :=
  v ≠ "" && v.toList.all (·.isDigit) && decide (9 ≤ v.length)

/-- `epoch < 1e12 ? epoch * 1000 : epoch`: seconds-vs-milliseconds
disambiguation of a URL-embedded epoch.  (`parseInt` is exact here whenever
the resulting time value is in the JS `Date` range, which is below 2^53.) -/
def epochToMs (e : Nat) : Int :=
  if e < 1000000000000 then (e : Int) * 1000 else (e : Int)

/-- The `for (const k of keys)` loop over the download URL's query
parameters, run inside the `try` whose `catch` ignores the error: `some t`
means the loop returned the ISO timestamp `t`; `none` means either the loop
completed without a hit or a `RangeError` from `toISOString` was swallowed
by the `catch` — both continue with the default expiry, and in the throwing
case later keys are (correctly) not consulted. -/
def urlTryKeys (keys : List String) (q : List (String × String)) (now : Int) : Option Int :=
  match keys with
  | [] => none
  | k :: ks =>
    match q.lookup k with
    | none => urlTryKeys ks q now
    | some v =>
      if epochParamCond v then
        match jsDateToISO (epochToMs (natFromDigits v.toList)) with
        | .ok t => some t
        | .error _ => none
      else
        match hPattern v with
        | some h =>
          match jsDateToISO (now + (h : Int) * 3600 * 1000) with
          | .ok t => some t
          | .error _ => none
        | none => urlTryKeys ks q now

/-- `parseExpiryFromResponse(apiResponse, downloadUrl)`. The download URL is
passed pre-parsed: `urlQ = none` models `new URL` throwing (the error is
swallowed and the default applies). -/
def parseExpiryCore (keys : List String) (resp : JVal)
    (urlQ : Option (List (String × String))) (now : Int) : Except Unit Int :=
  match bodyExpiry resp now with
  | some r => r
  | none =>
    let hit : Option Int :=
      match urlQ with
      | some q => urlTryKeys keys q now
      | none => none
    match hit with
    | some t => .ok t
    | none => jsDateToISO (now + 8 * 3600 * 1000)

/-- The value of the first candidate key present in the query, in key-list
order (what the loop in `parseExpiryFromResponse` inspects first). -/
def firstParamHit (keys : List String) (q : List (String × String)) : Option String :=
  match keys with
  | [] => none
  | k :: ks =>
    match q.lookup k with
    | some v => some v
    | none => firstParamHit ks q

def routesExpiryKeys : List String := ["expires", "expires_at", "dstime", "exp"]

/-- The standalone server's key list (`dstime` listed twice in the source). -/
def serverExpiryKeys : List String := ["expires", "expires_at", "dstime", "dstime", "exp"]

/-! ### ResponseNormalizer: candidate-link extraction -/

/-- The fixed priority list of known link fields. -/
def knownLinkFields : List String :=
  ["download_link", "downloadUrl", "download_url", "file", "file_url", "link", "url"]

/-- `[j?.download_link, …, j?.url].filter(Boolean)` (absent fields and falsy
values are dropped, order preserved). -/
def knownFieldCandidates (j : JVal) : List JVal :=
  (knownLinkFields.filterMap (jGetOpt j ·)).filter jTruthy

/-- The top-level string heuristic, identical in both copies for string
values: contains `terabox`, contains `dm-d.terabox`, or matches
`/\.mp4(\?|$)/i`. -/
def topLevelLinkHeuristic (s : String) : Bool :=
  strIncludes s "terabox" || strIncludes s "dm-d.terabox" || mp4Pat s

/-- The one-level nested search: string-valued entries containing
`terabox`. -/
def nestedScan (kvs : List (String × JVal)) : List JVal :=
  kvs.filterMap (fun kv =>
    match kv.2 with
    | .jstr s => if strIncludes s "terabox" then some (.jstr s) else none
    | _ => none)

namespace Routes

/-- The `routes.ts` fallback scan over `Object.keys(j)`: its condition is
fully parenthesised and null-guarded, so it never throws; object- and
array-valued entries are searched one level deep. -/
def scanGo : List (String × JVal) → List JVal
  | [] => []
  | (_, v) :: rest =>
    match v with
    | .jstr s => if topLevelLinkHeuristic s then .jstr s :: scanGo rest else scanGo rest
    | .jobj fs => nestedScan fs ++ scanGo rest
    | .jarr es => nestedScan (keyVals (.jarr es)) ++ scanGo rest
    | _ => scanGo rest

/-- `routes.ts` candidate collection: known fields first; if none and `j` is
truthy, the fallback scan. -/
def collectCandidates (j : JVal) : List JVal :=
  let cands := knownFieldCandidates j
  if cands.isEmpty then
    (if jTruthy j then scanGo (keyVals j) else [])
  else cands

end Routes

namespace CacheServer

/-- The standalone server's fallback scan.  Its condition
`typeof j[k] === 'string' && j[k].includes('terabox') || j[k].includes('dm-d.terabox') || j[k].match(/\.mp4(\?|$)/i)`
associates as `(string ∧ includes) ∨ includes ∨ match`, so for every
non-string value the second disjunct calls `.includes` on it: numbers,
booleans, `null` and plain objects throw a `TypeError` there (making the
`else if` nested-object branch of the source unreachable); arrays have
`Array.prototype.includes`, succeeding only on an element strictly equal to
the string, and then throw at `.match` when that fails. -/
def scanGo : List (String × JVal) → Except Unit (List JVal)
  | [] => .ok []
  | (_, v) :: rest =>
    match v with
    | .jstr s =>
      if topLevelLinkHeuristic s then (scanGo rest).map (.jstr s :: ·)
      else scanGo rest
    | .jarr es =>
      if es.any (fun e => match e with | .jstr s => s = "dm-d.terabox" | _ => false) then
        (scanGo rest).map (.jarr es :: ·)
      else .error ()
    | _ => .error ()

/-- The standalone server's candidate collection.  `j.download_link` on a
`null` payload throws; the scan iterates `Object.keys(j || {})`. -/
def collectCandidates (j : JVal) : Except Unit (List JVal) :=
  match j with
  | .jnull => .error ()
  | _ =>
    let cands := knownFieldCandidates j
    if cands.isEmpty then scanGo (if jTruthy j then keyVals j else [])
    else .ok cands

end CacheServer

/-- `j.size || j.filesize || j.file_size || null`. -/
def sizeChain (j : JVal) : JVal :=
  jOr (jField j "size") (jOr (jField j "filesize") (jOr (jField j "file_size") .jnull))

namespace Routes

/-- Candidate link and the size that accompanies it: the first collected
candidate (with the `size`/`filesize`/`file_size` chain), else the raw-text
regex fallback on `j?.rawText` (with size `null`).  The fallback branch
models source lines that, from the network path, are reachable only when a
successfully parsed JSON payload itself carries a truthy `rawText` field —
the non-JSON body wrapper is never built (see `Routes.attempt`). -/
def extractLink (j : JVal) : Option (JVal × JVal) :=
  match collectCandidates j with
  | c :: _ => some (c, sizeChain j)
  | [] =>
    if jTruthy (jField j "rawText") then
      match firstUrlMatch (jsToString (jField j "rawText")) with
      | some u => some (.jstr u, .jnull)
      | none => none
    else none

end Routes

namespace CacheServer

/-- As `Routes.extractLink`, but candidate collection can throw; the raw-text
fallback is guarded by `j && j.rawText` (and, from the network path, is
likewise reachable only via a JSON-borne `rawText` field). -/
def extractLink (j : JVal) : Except Unit (Option (JVal × JVal)) :=
  match collectCandidates j with
  | .error e => .error e
  | .ok (c :: _) => .ok (some (c, sizeChain j))
  | .ok [] =>
    if jTruthy j && jTruthy (jField j "rawText") then
      match firstUrlMatch (jsToString (jField j "rawText")) with
      | some u => .ok (some (.jstr u, .jnull))
      | none => .ok none
    else .ok none

end CacheServer

/-! ### ProxyAdapter / ResolutionOrchestrator: `tryProxiesForDownload` -/

/-- One entry of the `API_PROXIES` configuration. -/
structure ProxyDesc where
  name : String
  url : String
  method : String
  type : String
  field : String

/-- What one proxy response's body holds.  `nonJson` carries the body text
for specification purposes only: the program reads the body through
`res.json()`, which consumes it, so after a parse failure the text can no
longer be obtained (see the attempt functions below). -/
inductive BodyOutcome where
  | json (j : JVal)        -- `res.json()` parsed successfully
  | nonJson (text : String)  -- the body was not valid JSON; its raw text

/-- Outcome of the `fetch` for one proxy attempt.  `netErr` covers every
throw inside the per-proxy `try` that precedes payload processing
(transport errors, timeouts, a body-stream error, …). -/
inductive FetchOutcome where
  | netErr
  | resp (ok : Bool) (body : BodyOutcome)

/-- The data a successful attempt carries into the result. -/
structure AttemptOk where
  raw : JVal
  download_url : JVal
  expires_at : Int
  size : JVal

/-- The object `{ download_url, expires_at, size, raw, proxy }` returned by
`tryProxiesForDownload` on success. -/
structure Resolved where
  download_url : JVal
  expires_at : Int
  size : JVal
  raw : JVal
  proxy : String

def Routes.parseExpiryFromResponse : JVal → Option (List (String × String)) → Int → Except Unit Int :=
  parseExpiryCore routesExpiryKeys

def CacheServer.parseExpiryFromResponse : JVal → Option (List (String × String)) → Int → Except Unit Int :=
  parseExpiryCore serverExpiryKeys

/-- One proxy attempt of `routes.ts`'s `tryProxiesForDownload`: non-2xx and
transport errors fail softly.  A body that fails JSON parsing is ALSO a
soft failure: `res.json()` consumes the single-use body, so the catch
block's `res.text()` rejects with `TypeError: body used already`
(node-fetch), that error escapes to the per-proxy `catch`, and the
intended `{ rawText: text }` wrapper is never built from the network path.
On a parsed JSON payload, an extracted candidate is paired with
`parseExpiryFromResponse` (whose throw is caught by the per-proxy `catch`
and also fails softly). -/
def Routes.attempt (out : FetchOutcome) (now : Int) : Option AttemptOk :=
  match out with
  | .netErr => none
  | .resp ok body =>
    if !ok then none
    else
      match body with
      | .nonJson _ => none
      | .json j =>
        match Routes.extractLink j with
        | none => none
        | some (c, sz) =>
          match Routes.parseExpiryFromResponse j (parseUrlQuery (jsToString c)) now with
          | .ok e => some ⟨j, c, e, sz⟩
          | .error _ => none

/-- One proxy attempt of the standalone server (`node-fetch@2`): the same
soft failures as `Routes.attempt` — including the unre-readable non-JSON
body — and additionally a `TypeError` thrown by its candidate scan is
caught by the per-proxy `catch` and fails softly. -/
def CacheServer.attempt (out : FetchOutcome) (now : Int) : Option AttemptOk :=
  match out with
  | .netErr => none
  | .resp ok body =>
    if !ok then none
    else
      match body with
      | .nonJson _ => none
      | .json j =>
        match CacheServer.extractLink j with
        | .error _ => none
        | .ok none => none
        | .ok (some (c, sz)) =>
          match CacheServer.parseExpiryFromResponse j (parseUrlQuery (jsToString c)) now with
          | .ok e => some ⟨j, c, e, sz⟩
          | .error _ => none

/-- The `for (const proxy of API_PROXIES)` loop.  Each configured proxy is
paired with the outcome its `fetch` would produce for the source URL of this
resolution pass (the environment); the second component is the trace of
proxies actually contacted, in order. -/
def tryProxiesCore (attempt : FetchOutcome → Int → Option AttemptOk) :
    List (ProxyDesc × FetchOutcome) → Int → Option Resolved × List String
  | [], _ => (none, [])
  | (p, out) :: rest, now =>
    match attempt out now with
    | some a => (some ⟨a.download_url, a.expires_at, a.size, a.raw, p.name⟩, [p.name])
    | none =>
      let r := tryProxiesCore attempt rest now
      (r.1, p.name :: r.2)

def Routes.tryProxiesForDownload :
    List (ProxyDesc × FetchOutcome) → Int → Option Resolved × List String :=
  tryProxiesCore Routes.attempt

def CacheServer.tryProxiesForDownload :
    List (ProxyDesc × FetchOutcome) → Int → Option Resolved × List String :=
  tryProxiesCore CacheServer.attempt

/-- The `API_PROXIES` configuration of `routes.ts`. -/
def Routes.API_PROXIES : List ProxyDesc :=
  [⟨"playertera", "/api/playertera-proxy", "POST", "json", "url"⟩,
   ⟨"tera-fast", "/api/tera-fast-proxy", "GET", "query", "url"⟩,
   ⟨"teradwn", "/api/teradwn-proxy", "POST", "json", "link"⟩,
   ⟨"iteraplay", "/api/iteraplay-proxy", "POST", "json", "link"⟩,
   ⟨"raspywave", "/api/raspywave-proxy", "POST", "json", "link"⟩,
   ⟨"rapidapi", "/api/rapidapi-proxy", "POST", "json", "link"⟩,
   ⟨"tera-downloader-cc", "/api/tera-downloader-cc-proxy", "POST", "json", "url"⟩,
   ⟨"ronnie-client", "/api/ronnieverse-client", "GET", "query", "url"⟩]

/-- The `API_PROXIES` configuration of the standalone server. -/
def CacheServer.API_PROXIES : List ProxyDesc :=
  [⟨"iteraplay", "http://localhost:3000/iteraplay-proxy", "POST", "json", "link"⟩,
   ⟨"raspywave", "http://localhost:3000/raspywave-proxy", "POST", "json", "link"⟩,
   ⟨"rapidapi", "http://localhost:3000/rapidapi", "POST", "json", "link"⟩,
   ⟨"tera-cc", "http://localhost:3000/tera-downloader-cc", "POST", "json", "url"⟩,
   ⟨"ronnie- client", "http://localhost:3000/ronnieverse-client", "GET", "query", "url"⟩]

/-! ### LinkCache and ResolutionService: the two download handlers -/

/-- The drizzle media-item record, restricted to the fields the download
route reads or writes.  `downloadUrl`, `size` and `error` hold whatever JSON
value was stored (`jnull` for SQL NULL); the timestamps are instants
(`none` for NULL). -/
structure MediaItem where
  url : String
  downloadUrl : JVal
  downloadExpiresAt : Option Int
  downloadFetchedAt : Option Int
  size : JVal
  error : JVal

/-- The `videos` row of the standalone server, same conventions. -/
structure VideoRow where
  url : String
  download_url : JVal
  download_expires_at : Option Int
  download_fetched_at : Option Int
  size : JVal
  scraped_at : Option Int
  error : JVal

namespace CacheServer

/-- `isLinkValid(row)`: a cached link is valid iff a truthy `download_url`
is stored and either no expiry is stored (assumed valid) or the current
time is strictly before it. -/
def isLinkValid (row : Option VideoRow) (now : Int) : Bool :=
  match row with
  | none => false
  | some r =>
    if !(jTruthy r.download_url) then false
    else
      match r.download_expires_at with
      | none => true
      | some e => decide (now < e)

/-- The stored size:
`result.size ? (typeof result.size === 'number' ? result.size : null) : null`. -/
def coerceSize (v : JVal) : JVal :=
  if jTruthy v then
    match v with
    | .jnum n => .jnum n
    | _ => .jnull
  else .jnull

/-- The success upsert: `ON CONFLICT(url) DO UPDATE SET download_url,
download_expires_at, download_fetched_at, size` — the `error` and
`scraped_at` columns are not in the update list. -/
def upsertDownload (row : Option VideoRow) (url : String) (res : Resolved) (now : Int) :
    VideoRow :=
  match row with
  | some old =>
    { old with
      download_url := res.download_url,
      download_expires_at := some res.expires_at,
      download_fetched_at := some now,
      size := coerceSize res.size }
  | none =>
    { url := url, download_url := res.download_url,
      download_expires_at := some res.expires_at, download_fetched_at := some now,
      size := coerceSize res.size, scraped_at := none, error := .jnull }

/-- The failure upsert: `INSERT INTO videos (url, scraped_at, error) …
ON CONFLICT(url) DO UPDATE SET scraped_at=CURRENT_TIMESTAMP,
error=excluded.error`. -/
def recordFailure (row : Option VideoRow) (url : String) (now : Int) : VideoRow :=
  match row with
  | some old => { old with scraped_at := some now, error := .jstr "no-download-found" }
  | none =>
    { url := url, download_url := .jnull, download_expires_at := none,
      download_fetched_at := none, size := .jnull,
      scraped_at := some now, error := .jstr "no-download-found" }

def optIntToJ : Option Int → JVal
  | some e => .jnum e
  | none => .jnull

/-- The resolution branch of `GET /get-download`: try the proxies; on
exhaustion record the failure and answer 404; on success upsert and answer
the `source: "proxy"` object.  The result is (response JSON, stored row,
trace of contacted proxies). -/
def resolveFlow (row : Option VideoRow) (url : String)
    (ps : List (ProxyDesc × FetchOutcome)) (now : Int) :
    JVal × Option VideoRow × List String :=
  let t := tryProxiesForDownload ps now
  match t.1 with
  | none =>
    (.jobj [("error", .jstr "No download link found from proxies")],
     some (recordFailure row url now), t.2)
  | some res =>
    let stored := upsertDownload row url res now
    (.jobj [("source", .jstr "proxy"), ("proxy", .jstr res.proxy),
            ("download_url", stored.download_url),
            ("download_expires_at", .jnum res.expires_at),
            ("size", stored.size)],
     some stored, t.2)

/-- `GET /get-download`: serve from cache when `isLinkValid`, else resolve. -/
def getDownload (row : Option VideoRow) (url : String)
    (ps : List (ProxyDesc × FetchOutcome)) (now : Int) :
    JVal × Option VideoRow × List String :=
  match row with
  | some r =>
    if isLinkValid (some r) now then
      (.jobj [("source", .jstr "cache"), ("download_url", r.download_url),
              ("download_expires_at", optIntToJ r.download_expires_at),
              ("size", jOr r.size .jnull)],
       some r, [])
    else resolveFlow (some r) url ps now
  | none => resolveFlow none url ps now

end CacheServer

namespace Routes

/-- The resolution branch of `GET /api/media/:id/download`: on success the
item is updated (`downloadUrl`, `downloadExpiresAt`, `downloadFetchedAt`,
`size: result.size || mediaItem.size` — no `error` key, so the partial
`updateMediaItem` leaves it untouched) and a `source: "fresh"` object with
proxy attribution is returned; on exhaustion the route answers 404 without
touching storage. -/
def resolveFlow (it : MediaItem) (ps : List (ProxyDesc × FetchOutcome)) (now : Int) :
    JVal × Option MediaItem × List String :=
  let t := tryProxiesForDownload ps now
  match t.1 with
  | some res =>
    let it' : MediaItem :=
      { it with
        downloadUrl := res.download_url,
        downloadExpiresAt := some res.expires_at,
        downloadFetchedAt := some now,
        size := jOr res.size it.size }
    (.jobj [("source", .jstr "fresh"), ("downloadUrl", res.download_url),
            ("expiresAt", .jnum res.expires_at), ("proxy", .jstr res.proxy)],
     some it', t.2)
  | none =>
    (.jobj [("error", .jstr "No download link available")], some it, t.2)

/-- `GET /api/media/:id/download`.  The cache branch requires BOTH a truthy
`downloadUrl` and a present `downloadExpiresAt` with `now < expiresAt`;
a record with no stored expiry always goes to re-resolution. -/
def downloadHandler (item : Option MediaItem) (ps : List (ProxyDesc × FetchOutcome))
    (now : Int) : JVal × Option MediaItem × List String :=
  match item with
  | none => (.jobj [("error", .jstr "Media item not found")], none, [])
  | some it =>
    match it.downloadExpiresAt with
    | some e =>
      if jTruthy it.downloadUrl && decide (now < e) then
        (.jobj [("source", .jstr "cache"), ("downloadUrl", it.downloadUrl),
                ("expiresAt", .jnum e)],
         some it, [])
      else resolveFlow it ps now
    | none => resolveFlow it ps now

end Routes

/-! ### Helper lemmas -/

/-- The orchestrator loop, characterised in find/take-prefix style: the
failing prefix is traversed in order, the first success (if any) supplies
the result tagged with its proxy's name, and the trace stops there. -/
theorem tryProxiesCore_spec (att : FetchOutcome → Int → Option AttemptOk)
    (ps : List (ProxyDesc × FetchOutcome)) (now : Int) :
    tryProxiesCore att ps now =
      (let pre := ps.takeWhile (fun pe => (att pe.2 now).isNone)
       match ps.drop pre.length with
       | [] => (none, ps.map (fun pe => pe.1.name))
       | (p, out) :: _ =>
         ((att out now).map (fun a => ⟨a.download_url, a.expires_at, a.size, a.raw, p.name⟩),
          pre.map (fun pe => pe.1.name) ++ [p.name])) := by
  induction ps with
  | nil => rfl
  | cons pe rest ih =>
    obtain ⟨p, out⟩ := pe
    cases h : att out now with
    | some a =>
      simp [tryProxiesCore, h, List.takeWhile]
    | none =>
      simp only [tryProxiesCore, h, List.takeWhile, Option.isNone_some, Option.isNone_none,
        List.length_cons, List.drop_succ_cons, ih]
      cases hd : rest.drop (rest.takeWhile (fun pe => (att pe.2 now).isNone)).length with
      | nil => simp [hd]
      | cons q tl => simp [hd]

/-- If all lookups before a hit fail, the URL key loop resolves the hit's
value. -/
theorem urlTryKeys_firstHit (keys : List String) (q : List (String × String))
    (now : Int) (v : String) (hv : firstParamHit keys q = some v)
    (hc : epochParamCond v = true) :
    urlTryKeys keys q now =
      (match jsDateToISO (epochToMs (natFromDigits v.toList)) with
       | .ok t => some t
       | .error _ => none) := by
  induction keys with
  | nil => simp [firstParamHit] at hv
  | cons k ks ih =>
    cases hl : q.lookup k with
    | none =>
      simp only [firstParamHit, hl] at hv
      simpa [urlTryKeys, hl] using ih hv
    | some w =>
      simp only [firstParamHit, hl, Option.some.injEq] at hv
      subst hv
      simp [urlTryKeys, hl, hc]

/-- The duplicated `dstime` entry of the standalone server's key list does
not change which parameter is inspected first. -/
theorem firstParamHit_server_eq (q : List (String × String)) :
    firstParamHit serverExpiryKeys q = firstParamHit routesExpiryKeys q := by
  simp only [serverExpiryKeys, routesExpiryKeys, firstParamHit]
  cases q.lookup "expires" <;> cases q.lookup "expires_at" <;>
    cases q.lookup "dstime" <;> rfl

/-- Replacing the tail of the key list by an equal-outcome tail preserves
the loop's outcome. -/
theorem urlTryKeys_congr (k : String) (ks ks' : List String)
    (q : List (String × String)) (now : Int)
    (h : urlTryKeys ks q now = urlTryKeys ks' q now) :
    urlTryKeys (k :: ks) q now = urlTryKeys (k :: ks') q now := by
  cases hl : q.lookup k with
  | none => simp [urlTryKeys, hl, h]
  | some v =>
    by_cases hc : epochParamCond v = true
    · simp [urlTryKeys, hl, hc]
    · simp only [Bool.not_eq_true] at hc
      cases hp : hPattern v <;> simp [urlTryKeys, hl, hc, hp, h]

/-- A key listed twice in a row behaves like one occurrence. -/
theorem urlTryKeys_dup (k : String) (ks : List String)
    (q : List (String × String)) (now : Int) :
    urlTryKeys (k :: k :: ks) q now = urlTryKeys (k :: ks) q now := by
  cases hl : q.lookup k with
  | none => simp [urlTryKeys, hl]
  | some v =>
    by_cases hc : epochParamCond v = true
    · simp [urlTryKeys, hl, hc]
    · simp only [Bool.not_eq_true] at hc
      cases hp : hPattern v <;> simp [urlTryKeys, hl, hc, hp]

/-- Likewise the key loop itself is insensitive to the duplicate. -/
theorem urlTryKeys_server_eq (q : List (String × String)) (now : Int) :
    urlTryKeys serverExpiryKeys q now = urlTryKeys routesExpiryKeys q now :=
  urlTryKeys_congr _ _ _ q now
    (urlTryKeys_congr _ _ _ q now (urlTryKeys_dup "dstime" ["exp"] q now))

/-- On entry lists whose values are all strings, the two fallback scans
agree (and the standalone one does not throw). -/
theorem scanGo_allStr (kvs : List (String × JVal))
    (h : ∀ kv ∈ kvs, (kv.2).isStr = true) :
    CacheServer.scanGo kvs = .ok (Routes.scanGo kvs) := by
  induction kvs with
  | nil => rfl
  | cons kv rest ih =>
    obtain ⟨k, v⟩ := kv
    have hv : v.isStr = true := h (k, v) (List.mem_cons_self _ _)
    have hrest := ih (fun kv hkv => h kv (List.mem_cons_of_mem _ hkv))
    cases v with
    | jstr s =>
      by_cases hc : topLevelLinkHeuristic s = true
      · simp [CacheServer.scanGo, Routes.scanGo, hc, hrest, Except.map]
      · simp only [Bool.not_eq_true] at hc
        simp [CacheServer.scanGo, Routes.scanGo, hc, hrest, Except.map]
    | jnull => simp [JVal.isStr] at hv
    | jbool b => simp [JVal.isStr] at hv
    | jnum n => simp [JVal.isStr] at hv
    | jarr es => simp [JVal.isStr] at hv
    | jobj fs => simp [JVal.isStr] at hv

/-! ### The claims -/

/-- C1 (amended).  The standalone server's `isLinkValid` is true exactly
when a truthy `downloadUrl` is stored and either no `expiresAt` is stored
(absent expiry treated as still valid) or the current time is strictly
before it — in particular a record whose expiry equals the current instant
is not fresh.  The `routes.ts` download handler's cache check, however,
additionally requires `expiresAt` to be present: with `expiresAt` null it
always proceeds to re-resolution. -/
theorem freshness_check_characterization :
    (∀ (row : Option VideoRow) (now : Int),
       CacheServer.isLinkValid row now = true ↔
         ∃ r, row = some r ∧ jTruthy r.download_url = true ∧
           (r.download_expires_at = none ∨
             ∃ e, r.download_expires_at = some e ∧ now < e))
    ∧ (∀ (it : MediaItem) (ps : List (ProxyDesc × FetchOutcome)) (now : Int),
         it.downloadExpiresAt = none →
         Routes.downloadHandler (some it) ps now = Routes.resolveFlow it ps now) := by
  constructor
  · intro row now
    cases row with
    | none => simp [CacheServer.isLinkValid]
    | some r =>
      by_cases hu : jTruthy r.download_url = true
      · cases he : r.download_expires_at with
        | none => simp [CacheServer.isLinkValid, hu, he]
        | some e =>
          simp [CacheServer.isLinkValid, hu, he]
      · simp only [Bool.not_eq_true] at hu
        simp [CacheServer.isLinkValid, hu]
  · intro it ps now h
    simp [Routes.downloadHandler, h]

theorem freshness_check_characterization_witness :
    CacheServer.isLinkValid
        (some ⟨"https://example.com/s/abc", .jstr "https://x/y", none, none, .jnull, none, .jnull⟩)
        123456 = true
    ∧ Routes.downloadHandler
        (some ⟨"https://example.com/s/abc", .jstr "https://x/y", none, none, .jnull, .jnull⟩)
        [] 0 =
      Routes.resolveFlow
        ⟨"https://example.com/s/abc", .jstr "https://x/y", none, none, .jnull, .jnull⟩ [] 0 :=
  ⟨(freshness_check_characterization.1 _ 123456).mpr ⟨_, rfl, rfl, Or.inl rfl⟩,
   freshness_check_characterization.2 _ [] 0 rfl⟩

/-- C1 counterexample to the claim as stated: in `routes.ts`, a record with
`downloadUrl` set and `expiresAt` null is NOT treated as fresh — the
download handler contacts a proxy (trace `["playertera"]`) and, all proxies
failing, answers 404 instead of serving the cached link. -/
theorem freshness_null_expiry_counterexample :
    Routes.downloadHandler
        (some ⟨"u", .jstr "https://x/y", none, none, .jnull, .jnull⟩)
        [(⟨"playertera", "/api/playertera-proxy", "POST", "json", "url"⟩, .netErr)] 0 =
      (.jobj [("error", .jstr "No download link available")],
       some ⟨"u", .jstr "https://x/y", none, none, .jnull, .jnull⟩, ["playertera"])
    ∧ jTruthy (JVal.jstr "https://x/y") = true :=
  ⟨rfl, rfl⟩

/-- C2.  A stored record with a truthy `downloadUrl` and an `expiresAt`
strictly in the future is served from cache, tagged `source: "cache"`, the
stored state is untouched, and no proxy is contacted (empty trace) — in
both the `routes.ts` handler and the standalone server. -/
theorem cache_short_circuit :
    (∀ (it : MediaItem) (e : Int) (ps : List (ProxyDesc × FetchOutcome)) (now : Int),
       jTruthy it.downloadUrl = true → it.downloadExpiresAt = some e → now < e →
       Routes.downloadHandler (some it) ps now =
         (.jobj [("source", .jstr "cache"), ("downloadUrl", it.downloadUrl),
                 ("expiresAt", .jnum e)], some it, []))
    ∧ (∀ (r : VideoRow) (e : Int) (url : String) (ps : List (ProxyDesc × FetchOutcome))
         (now : Int),
       jTruthy r.download_url = true → r.download_expires_at = some e → now < e →
       CacheServer.getDownload (some r) url ps now =
         (.jobj [("source", .jstr "cache"), ("download_url", r.download_url),
                 ("download_expires_at", .jnum e), ("size", jOr r.size .jnull)],
          some r, [])) := by
  constructor
  · intro it e ps now h1 h2 h3
    simp [Routes.downloadHandler, h1, h2, h3]
  · intro r e url ps now h1 h2 h3
    simp [CacheServer.getDownload, CacheServer.isLinkValid, CacheServer.optIntToJ, h1, h2, h3]

theorem cache_short_circuit_witness :
    Routes.downloadHandler
        (some ⟨"https://example.com/s/abc", .jstr "https://x/y", some 3600000, none,
               .jnull, .jnull⟩)
        [(⟨"playertera", "/api/playertera-proxy", "POST", "json", "url"⟩, .netErr)] 0 =
      (.jobj [("source", .jstr "cache"), ("downloadUrl", .jstr "https://x/y"),
              ("expiresAt", .jnum 3600000)],
       some ⟨"https://example.com/s/abc", .jstr "https://x/y", some 3600000, none,
             .jnull, .jnull⟩, [])
    ∧ CacheServer.getDownload
        (some ⟨"https://example.com/s/abc", .jstr "https://x/y", some 3600000, none,
               .jnull, none, .jnull⟩)
        "https://example.com/s/abc"
        [(⟨"iteraplay", "http://localhost:3000/iteraplay-proxy", "POST", "json", "link"⟩,
          .netErr)] 0 =
      (.jobj [("source", .jstr "cache"), ("download_url", .jstr "https://x/y"),
              ("download_expires_at", .jnum 3600000), ("size", .jnull)],
       some ⟨"https://example.com/s/abc", .jstr "https://x/y", some 3600000, none,
             .jnull, none, .jnull⟩, []) :=
  ⟨cache_short_circuit.1 _ 3600000 _ 0 rfl rfl (by decide),
   cache_short_circuit.2 _ 3600000 _ _ 0 rfl rfl (by decide)⟩

/-- C3.  Both orchestrators try the configured proxies strictly in order:
the trace of contacted proxies is the failing prefix (plus the first
success, when one exists), the result is the first successful attempt's
candidate tagged with that proxy's name, and no proxy after the first
success appears in the trace. -/
theorem ordered_first_success :
    (∀ (ps : List (ProxyDesc × FetchOutcome)) (now : Int),
       Routes.tryProxiesForDownload ps now =
         (let pre := ps.takeWhile (fun pe => (Routes.attempt pe.2 now).isNone)
          match ps.drop pre.length with
          | [] => (none, ps.map (fun pe => pe.1.name))
          | (p, out) :: _ =>
            ((Routes.attempt out now).map
               (fun a => ⟨a.download_url, a.expires_at, a.size, a.raw, p.name⟩),
             pre.map (fun pe => pe.1.name) ++ [p.name])))
    ∧ (∀ (ps : List (ProxyDesc × FetchOutcome)) (now : Int),
       CacheServer.tryProxiesForDownload ps now =
         (let pre := ps.takeWhile (fun pe => (CacheServer.attempt pe.2 now).isNone)
          match ps.drop pre.length with
          | [] => (none, ps.map (fun pe => pe.1.name))
          | (p, out) :: _ =>
            ((CacheServer.attempt out now).map
               (fun a => ⟨a.download_url, a.expires_at, a.size, a.raw, p.name⟩),
             pre.map (fun pe => pe.1.name) ++ [p.name]))) :=
  ⟨fun ps now => tryProxiesCore_spec Routes.attempt ps now,
   fun ps now => tryProxiesCore_spec CacheServer.attempt ps now⟩

/-- C4 (amended).  When every proxy fails, the standalone server answers
the exhaustion error and upserts the record with `error` set to
`no-download-found` and the scrape timestamp refreshed, leaving
`download_url`, `download_expires_at` and `download_fetched_at` unchanged
(when no record existed, a record carrying only url, scrape time and error
is inserted — the record does not stay absent).  The `routes.ts` download
handler, by contrast, performs no cache write at all on exhaustion: the
stored record is returned untouched. -/
theorem exhaustion_record_update :
    (∀ (old : VideoRow) (url : String) (ps : List (ProxyDesc × FetchOutcome)) (now : Int),
       CacheServer.isLinkValid (some old) now = false →
       (CacheServer.tryProxiesForDownload ps now).1 = none →
       CacheServer.getDownload (some old) url ps now =
         (.jobj [("error", .jstr "No download link found from proxies")],
          some { old with scraped_at := some now, error := .jstr "no-download-found" },
          (CacheServer.tryProxiesForDownload ps now).2))
    ∧ (∀ (url : String) (ps : List (ProxyDesc × FetchOutcome)) (now : Int),
       (CacheServer.tryProxiesForDownload ps now).1 = none →
       CacheServer.getDownload none url ps now =
         (.jobj [("error", .jstr "No download link found from proxies")],
          some ⟨url, .jnull, none, none, .jnull, some now, .jstr "no-download-found"⟩,
          (CacheServer.tryProxiesForDownload ps now).2))
    ∧ (∀ (it : MediaItem) (ps : List (ProxyDesc × FetchOutcome)) (now : Int),
       (it.downloadExpiresAt = none ∨
         ∃ e, it.downloadExpiresAt = some e ∧
           (jTruthy it.downloadUrl = false ∨ e ≤ now)) →
       (Routes.tryProxiesForDownload ps now).1 = none →
       Routes.downloadHandler (some it) ps now =
         (.jobj [("error", .jstr "No download link available")], some it,
          (Routes.tryProxiesForDownload ps now).2)) := by
  refine ⟨?_, ?_, ?_⟩
  · intro old url ps now hf hn
    simp [CacheServer.getDownload, hf, CacheServer.resolveFlow, hn, CacheServer.recordFailure]
  · intro url ps now hn
    simp [CacheServer.getDownload, CacheServer.resolveFlow, hn, CacheServer.recordFailure]
  · intro it ps now h hn
    rcases h with h | ⟨e, he, hb⟩
    · simp [Routes.downloadHandler, h, Routes.resolveFlow, hn]
    · rcases hb with hb | hb
      · simp [Routes.downloadHandler, he, hb, Routes.resolveFlow, hn]
      · have hlt : ¬ (now < e) := not_lt.mpr hb
        simp [Routes.downloadHandler, he, hlt, Routes.resolveFlow, hn]

theorem exhaustion_record_update_witness :
    CacheServer.getDownload
        (some ⟨"u", .jstr "https://old/x", some (-1), some (-2), .jnull, some (-2), .jnull⟩)
        "u" [(⟨"iteraplay", "http://localhost:3000/iteraplay-proxy", "POST", "json", "link"⟩,
              .netErr)] 0 =
      (.jobj [("error", .jstr "No download link found from proxies")],
       some { (⟨"u", .jstr "https://old/x", some (-1), some (-2), .jnull, some (-2),
               .jnull⟩ : VideoRow) with
              scraped_at := some (0 : Int), error := .jstr "no-download-found" },
       (CacheServer.tryProxiesForDownload
          [(⟨"iteraplay", "http://localhost:3000/iteraplay-proxy", "POST", "json", "link"⟩,
            .netErr)] 0).2)
    ∧ Routes.downloadHandler
        (some ⟨"u", .jnull, none, none, .jnull, .jnull⟩)
        [(⟨"playertera", "/api/playertera-proxy", "POST", "json", "url"⟩, .netErr)] 0 =
      (.jobj [("error", .jstr "No download link available")],
       some ⟨"u", .jnull, none, none, .jnull, .jnull⟩,
       (Routes.tryProxiesForDownload
          [(⟨"playertera", "/api/playertera-proxy", "POST", "json", "url"⟩, .netErr)] 0).2) :=
  ⟨exhaustion_record_update.1 _ "u" _ 0 rfl rfl,
   exhaustion_record_update.2.2 _ _ 0 (Or.inl rfl) rfl⟩

/-- C4 counterexample to the claim as stated: in `routes.ts`, after every
proxy fails, the cache record is NOT updated — `lastError` stays null and
nothing is refreshed (the handler returns the item exactly as stored). -/
theorem exhaustion_routes_no_write_counterexample :
    Routes.downloadHandler
        (some ⟨"u", .jnull, none, none, .jnull, .jnull⟩)
        [(⟨"playertera", "/api/playertera-proxy", "POST", "json", "url"⟩, .netErr)] 0 =
      (.jobj [("error", .jstr "No download link available")],
       some ⟨"u", .jnull, none, none, .jnull, .jnull⟩, ["playertera"])
    ∧ (MediaItem.error ⟨"u", .jnull, none, none, .jnull, .jnull⟩ = .jnull) :=
  ⟨rfl, rfl⟩

/-- C5 (amended).  A successful resolution overwrites `downloadUrl`,
`expiresAt`, `fetchedAt` and `sizeBytes`, but does NOT clear the stored
error: neither the standalone server's `ON CONFLICT` update list nor the
`routes.ts` handler's partial update mentions the error column, so a
previously recorded failure reason survives the success (the error is
cleared only by other paths, e.g. the refresh endpoint). -/
theorem success_upsert_preserves_error :
    (∀ (old : VideoRow) (url : String) (ps : List (ProxyDesc × FetchOutcome)) (now : Int)
       (res : Resolved),
       CacheServer.isLinkValid (some old) now = false →
       (CacheServer.tryProxiesForDownload ps now).1 = some res →
       ∃ st, (CacheServer.getDownload (some old) url ps now).2.1 = some st ∧
         st.error = old.error ∧ st.scraped_at = old.scraped_at ∧
         st.download_url = res.download_url ∧
         st.download_expires_at = some res.expires_at ∧
         st.download_fetched_at = some now ∧
         st.size = CacheServer.coerceSize res.size)
    ∧ (∀ (it : MediaItem) (ps : List (ProxyDesc × FetchOutcome)) (now : Int)
         (res : Resolved),
       (it.downloadExpiresAt = none ∨
         ∃ e, it.downloadExpiresAt = some e ∧
           (jTruthy it.downloadUrl = false ∨ e ≤ now)) →
       (Routes.tryProxiesForDownload ps now).1 = some res →
       ∃ st, (Routes.downloadHandler (some it) ps now).2.1 = some st ∧
         st.error = it.error ∧
         st.downloadUrl = res.download_url ∧
         st.downloadExpiresAt = some res.expires_at ∧
         st.downloadFetchedAt = some now ∧
         st.size = jOr res.size it.size) := by
  constructor
  · intro old url ps now res hf hs
    refine ⟨⟨old.url, res.download_url, some res.expires_at, some now,
             CacheServer.coerceSize res.size, old.scraped_at, old.error⟩,
            ?_, rfl, rfl, rfl, rfl, rfl, rfl⟩
    simp [CacheServer.getDownload, hf, CacheServer.resolveFlow, hs, CacheServer.upsertDownload]
  · intro it ps now res h hs
    refine ⟨⟨it.url, res.download_url, some res.expires_at, some now,
             jOr res.size it.size, it.error⟩, ?_, rfl, rfl, rfl, rfl, rfl⟩
    rcases h with h | ⟨e, he, hb⟩
    · simp [Routes.downloadHandler, h, Routes.resolveFlow, hs]
    · rcases hb with hb | hb
      · simp [Routes.downloadHandler, he, hb, Routes.resolveFlow, hs]
      · have hlt : ¬ (now < e) := not_lt.mpr hb
        simp [Routes.downloadHandler, he, hlt, Routes.resolveFlow, hs]

theorem success_upsert_preserves_error_witness :
    (∃ st, (CacheServer.getDownload
        (some ⟨"https://example.com/s/abc", .jstr "https://old/x", some (-5), some (-100),
               .jnull, some (-100), .jstr "no-download-found"⟩)
        "https://example.com/s/abc"
        [(⟨"iteraplay", "http://localhost:3000/iteraplay-proxy", "POST", "json", "link"⟩,
          .resp true (.json (.jobj [("link", .jstr "https://cdn.example.com/f.mp4?dstime=1765000000"),
                                    ("size", .jnum 1048576)])))] 0).2.1 = some st ∧
       st.error = VideoRow.error ⟨"https://example.com/s/abc", .jstr "https://old/x",
           some (-5), some (-100), .jnull, some (-100), .jstr "no-download-found"⟩ ∧
       st.scraped_at = some (-100) ∧
       st.download_url = .jstr "https://cdn.example.com/f.mp4?dstime=1765000000" ∧
       st.download_expires_at = some 1765000000000 ∧
       st.download_fetched_at = some 0 ∧
       st.size = CacheServer.coerceSize (.jnum 1048576)) :=
  success_upsert_preserves_error.1 _ "https://example.com/s/abc" _ 0
    ⟨.jstr "https://cdn.example.com/f.mp4?dstime=1765000000", 1765000000000,
     .jnum 1048576,
     .jobj [("link", .jstr "https://cdn.example.com/f.mp4?dstime=1765000000"),
            ("size", .jnum 1048576)], "iteraplay"⟩
    rfl rfl

/-- C5 counterexample to the claim as stated: after a failure recorded
`lastError`, the next successful resolution stores the fresh link but the
record's `lastError` is still `no-download-found`, not null. -/
theorem success_error_not_cleared_counterexample :
    (CacheServer.getDownload
        (some ⟨"https://example.com/s/abc", .jstr "https://old/x", some (-5), some (-100),
               .jnull, some (-100), .jstr "no-download-found"⟩)
        "https://example.com/s/abc"
        [(⟨"iteraplay", "http://localhost:3000/iteraplay-proxy", "POST", "json", "link"⟩,
          .resp true (.json (.jobj [("link", .jstr "https://cdn.example.com/f.mp4?dstime=1765000000"),
                                    ("size", .jnum 1048576)])))] 0).2.1 =
      some ⟨"https://example.com/s/abc", .jstr "https://cdn.example.com/f.mp4?dstime=1765000000",
            some 1765000000000, some 0, .jnum 1048576, some (-100), .jstr "no-download-found"⟩
    ∧ (JVal.jstr "no-download-found" ≠ JVal.jnull) :=
  ⟨rfl, fun h => JVal.noConfusion h⟩

/-- C6 (amended).  `parseExpiryFromResponse` is not total: a truthy but
unparsable `expires_at` (and likewise a non-numeric `expires_in`) raises,
because that conversion sits outside the function's `try` block.  When no
heuristic matches, both copies do return the conservative default
`now + 8h` without raising, for any `now` whose default stays in the JS
`Date` range. -/
theorem expiry_fallback_default :
    ∀ (resp : JVal) (urlQ : Option (List (String × String))) (now : Int),
      bodyExpiry resp now = none →
      (∀ q, urlQ = some q → urlTryKeys routesExpiryKeys q now = none) →
      -8640000000000000 ≤ now + 8 * 3600 * 1000 →
      now + 8 * 3600 * 1000 ≤ 8640000000000000 →
      Routes.parseExpiryFromResponse resp urlQ now = .ok (now + 8 * 3600 * 1000)
      ∧ CacheServer.parseExpiryFromResponse resp urlQ now = .ok (now + 8 * 3600 * 1000) := by
  intro resp urlQ now hb hu hlo hhi
  have hd : jsDateToISO (now + 8 * 3600 * 1000) = .ok (now + 8 * 3600 * 1000) := by
    unfold jsDateToISO
    rw [if_pos ⟨hlo, hhi⟩]
  constructor
  · simp only [Routes.parseExpiryFromResponse, parseExpiryCore, hb]
    cases urlQ with
    | none => exact hd
    | some q => simp only [hu q rfl]; exact hd
  · simp only [CacheServer.parseExpiryFromResponse, parseExpiryCore, hb]
    cases urlQ with
    | none => exact hd
    | some q => simp only [urlTryKeys_server_eq, hu q rfl]; exact hd

theorem expiry_fallback_default_witness :
    Routes.parseExpiryFromResponse (.jobj []) none 0 = .ok 28800000
    ∧ CacheServer.parseExpiryFromResponse (.jobj []) none 0 = .ok 28800000 := by
  have h := expiry_fallback_default (.jobj []) none 0 rfl
    (fun q hq => by cases hq) (by norm_num) (by norm_num)
  norm_num at h
  exact h

/-- C6 counterexample to the claim as stated: on the response
`{ expires_at: "not-a-date" }` (a malformed expiry value) both copies raise
instead of returning a timestamp — `new Date("not-a-date").toISOString()`
throws a RangeError outside the function's `try`. -/
theorem expiry_throws_counterexample :
    Routes.parseExpiryFromResponse (.jobj [("expires_at", .jstr "not-a-date")]) none 0 =
      .error ()
    ∧ CacheServer.parseExpiryFromResponse (.jobj [("expires_at", .jstr "not-a-date")]) none 0 =
      .error () :=
  ⟨rfl, rfl⟩

/-- C7 (amended).  The candidate keys are inspected in the fixed order
`expires`, `expires_at`, `dstime`, `exp`: when the FIRST key of that order
present in the download URL's query has a pure-digit value of at least 9
digits, the expiry is that value as a Unix epoch — multiplied by 1000 when
smaller than 10^12 (seconds), verbatim otherwise (milliseconds) — provided
the resulting time value lies in the JS `Date` range (otherwise the
RangeError is swallowed and the default applies).  An earlier key in the
order takes precedence over a later pure-digit key. -/
theorem url_epoch_first_key :
    ∀ (resp : JVal) (q : List (String × String)) (now : Int) (v : String),
      bodyExpiry resp now = none →
      firstParamHit routesExpiryKeys q = some v →
      epochParamCond v = true →
      epochToMs (natFromDigits v.toList) ≤ 8640000000000000 →
      Routes.parseExpiryFromResponse resp (some q) now =
        .ok (epochToMs (natFromDigits v.toList))
      ∧ CacheServer.parseExpiryFromResponse resp (some q) now =
        .ok (epochToMs (natFromDigits v.toList)) := by
  intro resp q now v hb hf hc hr
  have h0 : (0 : Int) ≤ epochToMs (natFromDigits v.toList) := by
    unfold epochToMs
    split <;> positivity
  have hiso : jsDateToISO (epochToMs (natFromDigits v.toList)) =
      .ok (epochToMs (natFromDigits v.toList)) := by
    unfold jsDateToISO
    rw [if_pos ⟨by linarith, hr⟩]
  have hu : urlTryKeys routesExpiryKeys q now =
      some (epochToMs (natFromDigits v.toList)) := by
    rw [urlTryKeys_firstHit routesExpiryKeys q now v hf hc, hiso]
  constructor
  · simp only [Routes.parseExpiryFromResponse, parseExpiryCore, hb, hu]
  · simp only [CacheServer.parseExpiryFromResponse, parseExpiryCore, hb,
      urlTryKeys_server_eq, hu]

theorem url_epoch_first_key_witness :
    Routes.parseExpiryFromResponse (.jobj [])
        (some [("dstime", "1765000000")]) 0 = .ok 1765000000000
    ∧ CacheServer.parseExpiryFromResponse (.jobj [])
        (some [("dstime", "1765000000")]) 0 = .ok 1765000000000 :=
  url_epoch_first_key (.jobj []) [("dstime", "1765000000")] 0 "1765000000"
    rfl rfl (by decide) (by decide)

/-- C7 counterexample to the claim as stated: the URL query
`?expires=8h&dstime=1765000000` contains the key `dstime` with a pure-digit
10-digit value, yet the expiry is `now + 8h` (the earlier key `expires`
matches the duration pattern first), not the epoch value. -/
theorem url_epoch_key_order_counterexample :
    Routes.parseExpiryFromResponse (.jobj [])
        (some [("expires", "8h"), ("dstime", "1765000000")]) 0 = .ok 28800000
    ∧ CacheServer.parseExpiryFromResponse (.jobj [])
        (some [("expires", "8h"), ("dstime", "1765000000")]) 0 = .ok 28800000
    ∧ ((28800000 : Int) ≠ 1765000000000) :=
  ⟨rfl, rfl, by decide⟩

/-- C8 (code bug).  The read-once raw-text fallback — on a JSON-parse
failure, preserve the body as `{ rawText: body }` and extract the first
embedded absolute URL of length ≥ 30 — is what both copies plainly intend
(the catch block and the regex step are written for exactly this), but the
code cannot deliver it: `res.json()` consumes the single-use body, so the
catch block's `res.text()` rejects with `TypeError: body used already`
(node-fetch), the error escapes to the per-proxy `catch`, and the proxy is
soft-skipped.  Hence every 2xx response whose body fails JSON parsing —
even one whose text contains an embedded absolute URL of length ≥ 30 —
produces no fallback payload, no candidate, and no resolution, in both
copies. -/
theorem nonjson_body_soft_skipped :
    ∀ (t : String) (now : Int) (p : ProxyDesc),
      Routes.attempt (.resp true (.nonJson t)) now = none
      ∧ CacheServer.attempt (.resp true (.nonJson t)) now = none
      ∧ Routes.tryProxiesForDownload [(p, .resp true (.nonJson t))] now =
          (none, [p.name])
      ∧ CacheServer.tryProxiesForDownload [(p, .resp true (.nonJson t))] now =
          (none, [p.name]) :=
  fun _ _ _ => ⟨rfl, rfl, rfl, rfl⟩

/-- Unfolding of the standalone extraction for non-null payloads. -/
theorem collectCandidates_server_unfold (j : JVal) (hn : j ≠ .jnull) :
    CacheServer.collectCandidates j =
      (if (knownFieldCandidates j).isEmpty then
        CacheServer.scanGo (if jTruthy j then keyVals j else [])
      else .ok (knownFieldCandidates j)) := by
  cases j <;> first | exact absurd rfl hn | rfl

/-- C9 (amended).  On every parsed payload whose top-level values are all
strings, the two candidate extractions agree (the standalone copy throws no
TypeError and collects the same candidates as `routes.ts`).  They are NOT
equivalent in general: on a payload with a non-string top-level field the
standalone scan throws — yielding no candidate — where `routes.ts` continues
and may still extract one (see the counterexample). -/
theorem extraction_equiv_on_string_fields :
    ∀ j : JVal, j ≠ .jnull →
      (∀ kv ∈ keyVals j, (kv.2).isStr = true) →
      CacheServer.collectCandidates j = .ok (Routes.collectCandidates j) := by
  intro j hn hs
  rw [collectCandidates_server_unfold j hn]
  unfold Routes.collectCandidates
  by_cases he : (knownFieldCandidates j).isEmpty
  · rw [if_pos he, if_pos he]
    by_cases ht : jTruthy j
    · rw [if_pos ht, if_pos ht]
      exact scanGo_allStr _ hs
    · rw [if_neg ht, if_neg ht]
      rfl
  · rw [if_neg he, if_neg he]

theorem extraction_equiv_on_string_fields_witness :
    CacheServer.collectCandidates (.jobj [("note", .jstr "hello"),
        ("u", .jstr "http://cdn.terabox.com/v")]) =
      .ok (Routes.collectCandidates (.jobj [("note", .jstr "hello"),
        ("u", .jstr "http://cdn.terabox.com/v")])) :=
  extraction_equiv_on_string_fields _ (fun h => JVal.noConfusion h) (by decide)

/-- C9 counterexample: on the parsed 2xx payload
`{ "n": 5, "u": "http://cdn.terabox.com/v" }` (a non-string top-level field
and no known link field) `routes.ts` extracts the terabox link while the
standalone server's scan throws a TypeError and produces no candidate — the
two copies are not equivalent. -/
theorem extraction_inequiv_counterexample :
    Routes.collectCandidates (.jobj [("n", .jnum 5), ("u", .jstr "http://cdn.terabox.com/v")]) =
      [.jstr "http://cdn.terabox.com/v"]
    ∧ CacheServer.collectCandidates
        (.jobj [("n", .jnum 5), ("u", .jstr "http://cdn.terabox.com/v")]) = .error () :=
  ⟨rfl, rfl⟩

/-- Attribution shape of the `routes.ts` resolution branch: its response is
never tagged `cache`, and when tagged `fresh` it carries a `proxy` member. -/
theorem routes_resolveFlow_attrib (it : MediaItem) (ps : List (ProxyDesc × FetchOutcome))
    (now : Int) :
    (jGetOpt (Routes.resolveFlow it ps now).1 "source" ≠ some (.jstr "cache"))
    ∧ (jGetOpt (Routes.resolveFlow it ps now).1 "source" = some (.jstr "fresh") →
       ∃ n, jGetOpt (Routes.resolveFlow it ps now).1 "proxy" = some (.jstr n)) := by
  cases hr : (Routes.tryProxiesForDownload ps now).1 with
  | some res =>
    constructor
    · intro h
      simp [Routes.resolveFlow, hr, jGetOpt, List.lookup] at h
    · intro _
      exact ⟨res.proxy, by simp [Routes.resolveFlow, hr, jGetOpt, List.lookup]⟩
  | none =>
    constructor
    · intro h
      simp [Routes.resolveFlow, hr, jGetOpt, List.lookup] at h
    · intro h
      simp [Routes.resolveFlow, hr, jGetOpt, List.lookup] at h

/-- Attribution shape of the standalone server's resolution branch. -/
theorem server_resolveFlow_attrib (row : Option VideoRow) (url : String)
    (ps : List (ProxyDesc × FetchOutcome)) (now : Int) :
    (jGetOpt (CacheServer.resolveFlow row url ps now).1 "source" ≠ some (.jstr "cache"))
    ∧ (jGetOpt (CacheServer.resolveFlow row url ps now).1 "source" = some (.jstr "proxy") →
       ∃ n, jGetOpt (CacheServer.resolveFlow row url ps now).1 "proxy" = some (.jstr n)) := by
  cases hr : (CacheServer.tryProxiesForDownload ps now).1 with
  | some res =>
    constructor
    · intro h
      simp [CacheServer.resolveFlow, hr, jGetOpt, List.lookup] at h
    · intro _
      exact ⟨res.proxy, by simp [CacheServer.resolveFlow, hr, jGetOpt, List.lookup]⟩
  | none =>
    constructor
    · intro h
      simp [CacheServer.resolveFlow, hr, jGetOpt, List.lookup] at h
    · intro h
      simp [CacheServer.resolveFlow, hr, jGetOpt, List.lookup] at h

/-- C10.  Proxy attribution is reported only for a fresh resolution: a
cache-hit response of either handler has no `proxy` member at all, and a
fresh-resolution response (`source: "fresh"` in `routes.ts`,
`source: "proxy"` in the standalone server) always carries one. -/
theorem proxy_attribution_only_fresh :
    (∀ (item : Option MediaItem) (ps : List (ProxyDesc × FetchOutcome)) (now : Int),
       (jGetOpt (Routes.downloadHandler item ps now).1 "source" = some (.jstr "cache") →
         jGetOpt (Routes.downloadHandler item ps now).1 "proxy" = none)
       ∧ (jGetOpt (Routes.downloadHandler item ps now).1 "source" = some (.jstr "fresh") →
          ∃ n, jGetOpt (Routes.downloadHandler item ps now).1 "proxy" = some (.jstr n)))
    ∧ (∀ (row : Option VideoRow) (url : String) (ps : List (ProxyDesc × FetchOutcome))
         (now : Int),
       (jGetOpt (CacheServer.getDownload row url ps now).1 "source" = some (.jstr "cache") →
         jGetOpt (CacheServer.getDownload row url ps now).1 "proxy" = none)
       ∧ (jGetOpt (CacheServer.getDownload row url ps now).1 "source" = some (.jstr "proxy") →
          ∃ n, jGetOpt (CacheServer.getDownload row url ps now).1 "proxy" = some (.jstr n))) := by
  constructor
  · intro item ps now
    cases item with
    | none =>
      constructor
      · intro h
        simp [Routes.downloadHandler, jGetOpt, List.lookup] at h
      · intro h
        simp [Routes.downloadHandler, jGetOpt, List.lookup] at h
    | some it =>
      cases he : it.downloadExpiresAt with
      | some e =>
        by_cases hc : (jTruthy it.downloadUrl && decide (now < e)) = true
        · constructor
          · intro _
            simp [Routes.downloadHandler, he, hc, jGetOpt, List.lookup]
          · intro h
            simp [Routes.downloadHandler, he, hc, jGetOpt, List.lookup] at h
        · have hw : Routes.downloadHandler (some it) ps now = Routes.resolveFlow it ps now := by
            simp [Routes.downloadHandler, he, hc]
          rw [hw]
          exact ⟨fun h => absurd h (routes_resolveFlow_attrib it ps now).1,
            (routes_resolveFlow_attrib it ps now).2⟩
      | none =>
        have hw : Routes.downloadHandler (some it) ps now = Routes.resolveFlow it ps now := by
          simp [Routes.downloadHandler, he]
        rw [hw]
        exact ⟨fun h => absurd h (routes_resolveFlow_attrib it ps now).1,
          (routes_resolveFlow_attrib it ps now).2⟩
  · intro row url ps now
    cases row with
    | none =>
      have hw : CacheServer.getDownload none url ps now =
          CacheServer.resolveFlow none url ps now := rfl
      rw [hw]
      exact ⟨fun h => absurd h (server_resolveFlow_attrib none url ps now).1,
        (server_resolveFlow_attrib none url ps now).2⟩
    | some r =>
      by_cases hv : CacheServer.isLinkValid (some r) now = true
      · constructor
        · intro _
          simp [CacheServer.getDownload, hv, jGetOpt, List.lookup]
        · intro h
          simp [CacheServer.getDownload, hv, jGetOpt, List.lookup] at h
      · have hw : CacheServer.getDownload (some r) url ps now =
            CacheServer.resolveFlow (some r) url ps now := by
          simp [CacheServer.getDownload, hv]
        rw [hw]
        exact ⟨fun h => absurd h (server_resolveFlow_attrib (some r) url ps now).1,
          (server_resolveFlow_attrib (some r) url ps now).2⟩

theorem proxy_attribution_only_fresh_witness :
    jGetOpt (Routes.downloadHandler
        (some ⟨"u", .jstr "https://x/y", some 3600000, none, .jnull, .jnull⟩) [] 0).1
        "proxy" = none
    ∧ ∃ n, jGetOpt (CacheServer.getDownload none "https://example.com/s/abc"
        [(⟨"iteraplay", "http://localhost:3000/iteraplay-proxy", "POST", "json", "link"⟩,
          .resp true (.json (.jobj [("link",
            .jstr "https://cdn.example.com/f.mp4?dstime=1765000000")])))] 0).1
        "proxy" = some (.jstr n) :=
  ⟨(proxy_attribution_only_fresh.1 _ [] 0).1 rfl,
   (proxy_attribution_only_fresh.2 none _ _ 0).2 rfl⟩

end Refine
